import Mathlib

/-!
Verification of `oidc-authservice` claims over a shallow embedding of the
repository's Go sources.

Embedded code:
* `sessions/state.go` — `CreateState`, `VerifyState`, `randString`,
  `stringWithCharset`, the `oidc_state_csrf` cookie constants.
* `authenticator_session.go` — `sessionAuthenticator.AuthenticateRequest`.
* `authenticators/idtoken.go` — `IDTokenAuthenticator.Authenticate`.
* `common/util.go` — `GetBearerToken`.

External collaborators (gorilla session store, `revokeSession`,
`SessionManager`, the OIDC provider) are modelled as explicit inputs or as
spec-modelled functions, each marked in its doc comment.
-/

namespace OIDCAuthService

/-! ## Data model for the state flow (sessions/state.go) -/

/-- `const oidcStateCookie = "oidc_state_csrf"` (sessions/state.go). -/
def oidcStateCookie : String := "oidc_state_csrf"

/-- `const charset = "abcdefghijklmnopqrstuvwxyz"` (sessions/state.go). -/
def charset : String := "abcdefghijklmnopqrstuvwxyz"

/-- `type State struct { FirstVisitedURL string }` (sessions/state.go). -/
structure State where
  FirstVisitedURL : String
deriving DecidableEq, Repr

/-- The OIDC-state bucket of the Session Store: a finite map from the
session identifier (the cookie value written by the gorilla store) to the
persisted `State` record.  Lazy TTL expiry shows up as absence of the key. -/
abbrev StateStore := List (String × State)

/-- Store lookup: `store.Get` keyed by the session identifier.  A missing
record corresponds to `session.IsNew = true` in the Go code. -/
def StateStore.get? (store : StateStore) (k : String) : Option State :=
  (store.find? (fun p => p.1 == k)).map (·.2)

/-- Record deletion, the effect on the store of `revokeSession`
(`MaxAge = -1` followed by `Save`). -/
def StateStore.erase (store : StateStore) (k : String) : StateStore :=
  store.filter (fun p => p.1 != k)

/-- The slice of an incoming HTTP request that `VerifyState` reads: the
`state` form value and the request's cookies (name/value pairs). -/
structure StateRequest where
  stateParam : String
  cookies : List (String × String)
deriving DecidableEq, Repr

/-- `r.Cookie(name)`: the first cookie with the given name, if any. -/
def StateRequest.cookie? (r : StateRequest) (name : String) : Option String :=
  (r.cookies.find? (fun p => p.1 == name)).map (·.2)

/-- The error outcomes of `VerifyState`, one constructor per `return nil, err`
site in sessions/state.go. -/
inductive StateError where
  | missingParameter
  | missingCookie (cookieName : String)
  | mismatch
  | expired
deriving DecidableEq, Repr

/-- The message carried by the Go `error` value returned to the caller at
each failure site of `VerifyState` (sessions/state.go lines 153, 169, 174,
186). -/
def StateError.message : StateError → String
  | .missingParameter => "Missing url parameter: state"
  | .missingCookie cookieName =>
      "Missing cookie: " ++ "'" ++ cookieName ++ "'"
  | .mismatch =>
      "State value from http params doesn't match " ++
      "value in cookie. Possible reasons for this error include " ++
      "opening the login form in more than 1 browser tabs OR a CSRF " ++
      "attack."
  | .expired => "State value not found in store, maybe it expired"

/-- Splitting of a character list at every occurrence of `sep`, the
recursive core of `stringsSplit`; the result is always non-empty. -/
def splitChars (sep : Char) : List Char → List (List Char)
  | [] => [[]]
  | c :: cs =>
    match splitChars sep cs with
    | [] => [[c]]
    | g :: gs => if c = sep then [] :: g :: gs else (c :: g) :: gs

/-- Go's `strings.Split(s, sep)` for the single-character separator the
code uses: the substrings of `s` between occurrences of `sep`; the result
has one part per separator occurrence plus one, so it is never empty, and
splitting the empty string yields one empty part, as in Go. -/
def stringsSplit (s : String) (sep : Char) : List String :=
  (splitChars sep s.toList).map String.mk

/-- The parameter-decoding step of `VerifyState` (sessions/state.go lines
156–164): under dynamic cookie naming the parameter is split on `"."` into
the session-identifier part (`stateParamParts[0]`) and the nonce
(`stateParamParts[1]`); `none` models the Go index-out-of-range panic when
the split yields fewer than two parts.  Without dynamic naming the
parameter is the session identifier and the nonce stays `""`. -/
def parseStateParam (dynamicOidcStateCookieName : Bool) (stateParam : String) :
    Option (String × String) :=
  if dynamicOidcStateCookieName then
    match stringsSplit stateParam '.' with
    | stateValue :: nonce :: _ => some (stateValue, nonce)
    | _ => none
  else
    some (stateParam, "")

/-- The cookie name `VerifyState` and `CreateState` use: the base name, with
`"_" ++ nonce` appended under dynamic cookie naming. -/
def stateCookieName (dynamicOidcStateCookieName : Bool) (nonce : String) : String :=
  if dynamicOidcStateCookieName then oidcStateCookie ++ "_" ++ nonce
  else oidcStateCookie

/-- Shallow embedding of `VerifyState` (sessions/state.go lines 147–196).

Result `none` models a Go panic (the out-of-range nonce access); otherwise
the result pairs the returned value (`Except` mirroring `(*State, error)`)
with the OIDC-state store after the call.

The gorilla store is modelled by `StateStore`: `store.Get(r, name)` keys the
record by the value of cookie `name` (which the code has already read and
compared against the state parameter), and a missing record is
`session.IsNew`.  `revokeSession` is modelled from the spec — local deletion
of the record always succeeds (spec §4.3: local deletion always succeeds
even if provider-side revocation fails), so the `error revoking state
session` branch is unreachable in the model. -/
def VerifyState (r : StateRequest) (store : StateStore)
    (dynamicOidcStateCookieName : Bool) :
    Option (Except StateError State × StateStore) :=
  if r.stateParam.length == 0 then
    some (.error .missingParameter, store)
  else
    match parseStateParam dynamicOidcStateCookieName r.stateParam with
    | none => none
    | some (stateValue, nonce) =>
      let cookieName := stateCookieName dynamicOidcStateCookieName nonce
      match r.cookie? cookieName with
      | none => some (.error (.missingCookie cookieName), store)
      | some cookieValue =>
        if stateValue != cookieValue then
          some (.error .mismatch, store)
        else
          match store.get? cookieValue with
          | none => some (.error .expired, store)
          | some state =>
            some (.ok state, store.erase cookieValue)

/-- `stringWithCharset` (sessions/state.go lines 88–94): one character of
`charset` per random draw; the draws `seededRand.Intn(len(charset))` are
passed in explicitly as the list `draws`. -/
def stringWithCharset (draws : List Nat) (cs : String) : String :=
  String.mk (draws.map (fun i => cs.toList.getD (i % cs.toList.length) 'a'))

/-- `randString` (sessions/state.go lines 97–99). -/
def randString (draws : List Nat) : String :=
  stringWithCharset draws charset

/-- The observable result of `CreateState`: the cookie name used, the
`MaxAge` set on the session options, and the returned state value. -/
structure CreateStateResult where
  cookieName : String
  maxAgeSeconds : Nat
  stateValue : String
deriving DecidableEq, Repr

/-- Shallow embedding of `CreateState` (sessions/state.go lines 105–136).

The two sources of nondeterminism are explicit inputs: `draws` are the eight
random draws of `randString(8)`, and `sessionID` is the random session
identifier that the gorilla store assigns on `session.Save`.  `session.Save`
itself is modelled from the spec: it persists the record in the Session
Store under `sessionID` and sets the cookie to that identifier, so the
`Set-Cookie` re-parse in the Go code yields `c.Value = sessionID`. -/
def CreateState (s : State) (store : StateStore) (draws : List Nat)
    (sessionID : String) (dynamicOidcStateCookieName : Bool) :
    CreateStateResult × StateStore :=
  let nonce := randString draws
  let oidcStateCookieName := stateCookieName dynamicOidcStateCookieName nonce
  let maxAge := 20 * 60
  let store' := (sessionID, s) :: store
  let stateValue :=
    if dynamicOidcStateCookieName then sessionID ++ "." ++ nonce
    else sessionID
  ({ cookieName := oidcStateCookieName
     maxAgeSeconds := maxAge
     stateValue := stateValue }, store')

/-- Modelled from the spec: the callback endpoint is not part of the
embedded sources; per spec §4.6 it returns, for every state-verification
failure, status 401 with one generic client-facing message, never the
underlying error. -/
def callbackFailureResponse (_e : StateError) : Nat × String :=
  (401, "invalid state")

/-! ## Session authenticator (authenticator_session.go) -/

/-- The dynamically-typed `groups` entry of a stored user-session record:
absent, present with a non-`[]string` type, or a genuine string list
(`session.Values[oidc.UserSessionGroups].([]string)` with `, ok`). -/
inductive GroupsValue where
  | absent
  | wrongType
  | list (groups : List String)
deriving DecidableEq, Repr

/-- A stored user-session record, i.e. the `session.Values` entries the
session authenticator reads.  `tokenPresent` models whether the
`UserSessionOAuth2Tokens` value exists with type `oauth2.Token` (its
contents are opaque to the authenticator); `userID` is `none` when the
`UserSessionUserID` value is absent or not a string.  Both are read with
unchecked type assertions in the Go code, which panic on `none`/`false`. -/
structure UserSessionRecord where
  tokenPresent : Bool
  userID : Option String
  groupsValue : GroupsValue
deriving DecidableEq, Repr

/-- The user-session bucket of the Session Store, keyed by session ID. -/
abbrev UserStore := List (String × UserSessionRecord)

/-- Store lookup; a missing record is `session.IsNew = true`. -/
def UserStore.get? (store : UserStore) (k : String) : Option UserSessionRecord :=
  (store.find? (fun p => p.1 == k)).map (·.2)

/-- Record deletion: the local effect of `sa.sm.RevokeSession`. -/
def UserStore.erase (store : UserStore) (k : String) : UserStore :=
  store.filter (fun p => p.1 != k)

/-- The outcome of `sa.sm.GetUserInfo` under strict session validation, as
the session authenticator case-splits on it (authenticator_session.go lines
48–55): success, a `*svc.RequestError` carrying the provider's HTTP status
code (matched via `errors.As`), or any other error. -/
inductive GetUserInfoResult where
  | success
  | requestError (statusCode : Nat)
  | otherError
deriving DecidableEq, Repr

/-- The error outcomes of `sessionAuthenticator.AuthenticateRequest`, one
constructor per `return nil, false, err` site with a non-nil error. -/
inductive SessionAuthError where
  | sessionFromRequest
  | userInfoUnexpected
  | userInfoUnexpectedCode (statusCode : Nat)
deriving DecidableEq, Repr

/-- Mirror of `*authenticator.Response`: the identity built from the
session's stored `userID` and `groups`. -/
structure AuthnResponse where
  name : String
  groups : List String
deriving DecidableEq, Repr

/-- Mirror of the Go triple `(*authenticator.Response, bool, error)`. -/
structure AuthnOutcome where
  response : Option AuthnResponse
  handled : Bool
  error : Option SessionAuthError
deriving DecidableEq, Repr

/-- The tail of `AuthenticateRequest` (authenticator_session.go lines
70–84): default `groups` to the empty list when the stored value is absent
or mis-typed, then build the response from the stored `userID` — whose
unchecked type assertion panics (`none`) when that value is absent. -/
def sessionAuthnSuccess (rec : UserSessionRecord) (store : UserStore) :
    Option (AuthnOutcome × UserStore) :=
  let groups := match rec.groupsValue with
    | .list gs => gs
    | _ => []
  match rec.userID with
  | none => none
  | some uid =>
    some ({ response := some { name := uid, groups := groups },
            handled := true, error := none }, store)

/-- Shallow embedding of `sessionAuthenticator.AuthenticateRequest`
(authenticator_session.go lines 29–85).

`sessionKey` is the session identifier the request's cookie or header
points at (`none` when the request carries neither), and `sessionErr`
models `sa.store.SessionFromRequest` failing outright (a store read/decode
error).  `userInfo` is the provider's answer to the `GetUserInfo` call that
strict validation performs with the session's stored token.  Result `none`
models a Go panic (a failing type assertion on the stored token or user
ID); otherwise the result pairs the outcome triple with the user-session
store after the call.  `RevokeSession` is modelled from the spec — local
deletion always succeeds (spec §4.3), its provider-side failure is only
logged by the Go code. -/
def sessionAuthenticateRequest (store : UserStore) (sessionKey : Option String)
    (sessionErr : Bool) (strictSessionValidation : Bool)
    (userInfo : GetUserInfoResult) :
    Option (AuthnOutcome × UserStore) :=
  if sessionErr then
    some ({ response := none, handled := false,
            error := some .sessionFromRequest }, store)
  else
    match sessionKey.bind (fun k => (store.get? k).map (fun rec => (k, rec))) with
    | none =>
      -- session.IsNew: pass through
      some ({ response := none, handled := false, error := none }, store)
    | some (k, rec) =>
      if strictSessionValidation then
        if !rec.tokenPresent then
          none
        else
          match userInfo with
          | .success =>
            sessionAuthnSuccess rec store
          | .requestError statusCode =>
            if statusCode != 401 then
              some ({ response := none, handled := false,
                      error := some (.userInfoUnexpectedCode statusCode) }, store)
            else
              some ({ response := none, handled := false, error := none },
                    store.erase k)
          | .otherError =>
            some ({ response := none, handled := false,
                    error := some .userInfoUnexpected }, store)
      else
        sessionAuthnSuccess rec store

/-! ## Bearer-ID-token authenticator (authenticators/idtoken.go) -/

/-- Removal of leading whitespace characters from a character list, the
recursive core of `stringsTrimSpace`. -/
def trimLeftChars : List Char → List Char
  | [] => []
  | c :: cs => if c.isWhitespace then trimLeftChars cs else c :: cs

/-- Go's `strings.TrimSpace`: surrounding whitespace removed on both
ends. -/
def stringsTrimSpace (s : String) : String :=
  String.mk (trimLeftChars ((trimLeftChars s.toList.reverse).reverse))

/-- `some rest` when the first list is a leading segment of the second,
with `rest` the remainder; `none` otherwise.  This is the core of Go's
`strings.HasPrefix` / `strings.TrimPrefix` pair. -/
def dropPrefixChars : List Char → List Char → Option (List Char)
  | [], l => some l
  | _ :: _, [] => none
  | p :: ps, c :: cs => if p = c then dropPrefixChars ps cs else none

/-- `GetBearerToken` (common/util.go lines 178–184): trim surrounding
whitespace, then strip one leading `"Bearer "` scheme if present (the Go
`HasPrefix` test plus `TrimPrefix` collapse into one combinator that
returns the string unchanged when the scheme is absent). -/
def GetBearerToken (value : String) : String :=
  let value := stringsTrimSpace value
  match dropPrefixChars "Bearer ".toList value.toList with
  | some rest => String.mk rest
  | none => value

/-- Mirror of `common.User` (common/util.go lines 45–50); `Extra` is an
association list standing for the Go map, with `[]` for the zero-value
`nil` map. -/
structure User where
  Name : String
  UID : String
  Groups : List String
  Extra : List (String × List String)
deriving DecidableEq, Repr

/-- The claims extracted from a verified ID token by `oidc.NewClaims` /
`claims.UserID()` / `claims.Groups()` (external to the embedded sources):
`userID = none` models `claims.UserID()` returning an error because the
configured userID claim is absent. -/
structure ClaimsData where
  userID : Option String
  groups : List String
deriving DecidableEq, Repr

/-- The result of `IDTokenAuthenticator.Authenticate`: the Go triple
`(*common.User, bool, error)` — the error is always nil in the source, so
only its presence is tracked — plus the response headers the authenticator
set via `w.Header().Set`. -/
structure IDTokenAuthnResult where
  user : Option User
  handled : Bool
  errorPresent : Bool
  respHeaders : List (String × String)
deriving DecidableEq, Repr

/-- Shallow embedding of `IDTokenAuthenticator.Authenticate`
(authenticators/idtoken.go lines 41–95).

`headerValue` is `r.Header.Get(s.Header)`; `tokenScheme` and `tokenHeader`
are the authenticator's configuration.  The two provider-side steps are
explicit inputs: `verified` is whether `VerifyWithoutClientId` succeeds on
the bearer token, and `claimsResult` is the outcome of `oidc.NewClaims`
(`none` for its error branch, otherwise the extracted claims). -/
def idTokenAuthenticate (headerValue tokenScheme tokenHeader : String)
    (verified : Bool) (claimsResult : Option ClaimsData) :
    IDTokenAuthnResult :=
  let bearer := GetBearerToken headerValue
  if bearer.length == 0 then
    { user := none, handled := false, errorPresent := false, respHeaders := [] }
  else if !verified then
    { user := none, handled := false, errorPresent := false, respHeaders := [] }
  else
    match claimsResult with
    | none =>
      { user := none, handled := false, errorPresent := false, respHeaders := [] }
    | some claims =>
      let idHeader :=
        if tokenScheme != "" then tokenScheme ++ " " ++ bearer
        else bearer
      let respHeaders := [(tokenHeader, idHeader)]
      match claims.userID with
      | none =>
        -- USERID_CLAIM missing: empty user, expected for client credentials
        { user := some { Name := "", UID := "", Groups := [], Extra := [] },
          handled := true, errorPresent := false, respHeaders := respHeaders }
      | some userID =>
        { user := some { Name := userID, UID := "",
                         Groups := claims.groups,
                         Extra := [("auth-method", ["header"])] },
          handled := true, errorPresent := false, respHeaders := respHeaders }

/-- Association-list lookup for `User.Extra`. -/
def User.extraLookup (u : User) (key : String) : Option (List String) :=
  (u.Extra.find? (fun p => p.1 == key)).map (·.2)

/-! ## Helper lemmas -/

theorem find?_filter_ne {α : Type} (l : List (String × α)) (k : String) :
    (l.filter (fun p => p.1 != k)).find? (fun p => p.1 == k) = none := by
  rw [List.find?_eq_none]
  intro x hx
  have hpx := (List.mem_filter.mp hx).2
  simpa using hpx

theorem stateStore_get?_erase (store : StateStore) (k : String) :
    StateStore.get? (StateStore.erase store k) k = none := by
  unfold StateStore.get? StateStore.erase
  rw [find?_filter_ne]
  rfl

theorem userStore_get?_erase (store : UserStore) (k : String) :
    UserStore.get? (UserStore.erase store k) k = none := by
  unfold UserStore.get? UserStore.erase
  rw [find?_filter_ne]
  rfl

theorem stateParam_length_beq (s : String) (h : s ≠ "") :
    (s.length == 0) = false := by
  cases s with
  | mk data =>
    cases data with
    | nil => exact absurd rfl h
    | cons c cs => simp [String.length]

/-- Evaluation of `VerifyState` past the parameter checks: once the state
parameter is non-empty and decodes, the result is determined by the cookie
lookup, the CSRF comparison and the store lookup exactly as in
sessions/state.go lines 166–196. -/
theorem VerifyState_eval (r : StateRequest) (store : StateStore) (dyn : Bool)
    (v nonce : String)
    (hlen : r.stateParam ≠ "")
    (hparse : parseStateParam dyn r.stateParam = some (v, nonce)) :
    VerifyState r store dyn =
      (match r.cookie? (stateCookieName dyn nonce) with
      | none =>
        some (.error (.missingCookie (stateCookieName dyn nonce)), store)
      | some cookieValue =>
        if v != cookieValue then
          some (.error .mismatch, store)
        else
          match StateStore.get? store cookieValue with
          | none => some (.error .expired, store)
          | some state => some (.ok state, StateStore.erase store cookieValue)) := by
  unfold VerifyState
  rw [stateParam_length_beq r.stateParam hlen, hparse]
  simp

/-- Inversion of a successful `VerifyState` call: success happens exactly on
the sessions/state.go path where the parameter is present and decodes, the
(possibly nonce-suffixed) cookie carries the same session identifier, and
the store holds a record for it — which the call then erases. -/
theorem VerifyState_ok_inv (r : StateRequest) (store : StateStore) (dyn : Bool)
    (s : State) (store' : StateStore)
    (h : VerifyState r store dyn = some (Except.ok s, store')) :
    ∃ v nonce,
      r.stateParam ≠ "" ∧
      parseStateParam dyn r.stateParam = some (v, nonce) ∧
      r.cookie? (stateCookieName dyn nonce) = some v ∧
      StateStore.get? store v = some s ∧
      store' = StateStore.erase store v := by
  unfold VerifyState at h
  split at h
  next hlen => simp at h
  next hlen =>
    have hne : r.stateParam ≠ "" := by
      intro he
      rw [he] at hlen
      exact hlen rfl
    split at h
    next => exact absurd h (by simp)
    next v nonce hparse =>
      refine ⟨v, nonce, hne, hparse, ?_⟩
      dsimp only [] at h
      split at h
      next => simp at h
      next cookieValue hcookie =>
        split at h
        next => simp at h
        next hbne =>
          have hvc : v = cookieValue := by
            simpa using hbne
          subst hvc
          split at h
          next => simp at h
          next st hget =>
            have h1 : st = s ∧ StateStore.erase store v = store' := by
              simpa using h
            exact ⟨hcookie, h1.1 ▸ hget, h1.2.symm⟩

/-! ## Claims about the state flow -/

/-- C1: State single-use — a successful `VerifyState` call consumes the
state record, so a second call with the identical state parameter and the
identical cookies fails with the `Expired` error (record not found in the
store) and leaves the store unchanged. -/
theorem VerifyState_single_use (r : StateRequest) (store store' : StateStore)
    (dyn : Bool) (s : State)
    (h : VerifyState r store dyn = some (Except.ok s, store')) :
    VerifyState r store' dyn = some (Except.error StateError.expired, store') := by
  obtain ⟨v, nonce, hne, hparse, hcookie, hget, hstore'⟩ :=
    VerifyState_ok_inv r store dyn s store' h
  rw [VerifyState_eval r store' dyn v nonce hne hparse, hcookie]
  subst hstore'
  simp [stateStore_get?_erase]

theorem VerifyState_single_use_witness :
    VerifyState ⟨"sid1", [("oidc_state_csrf", "sid1")]⟩
        [("sid1", ⟨"/app/page"⟩)] false =
      some (Except.ok ⟨"/app/page"⟩, []) ∧
    VerifyState ⟨"sid1", [("oidc_state_csrf", "sid1")]⟩ [] false =
      some (Except.error StateError.expired, []) :=
  ⟨rfl, VerifyState_single_use ⟨"sid1", [("oidc_state_csrf", "sid1")]⟩
    [("sid1", ⟨"/app/page"⟩)] [] false ⟨"/app/page"⟩ rfl⟩

/-- C2: CSRF mismatch detection — when the expected state cookie carries
value `A` and the state parameter decodes to session-identifier value `B`
with `A ≠ B`, `VerifyState` fails with the `Mismatch` error and returns no
`State` (the store is untouched). -/
theorem VerifyState_mismatch (r : StateRequest) (store : StateStore)
    (dyn : Bool) (A B nonce : String)
    (hne : r.stateParam ≠ "")
    (hparse : parseStateParam dyn r.stateParam = some (B, nonce))
    (hcookie : r.cookie? (stateCookieName dyn nonce) = some A)
    (hAB : A ≠ B) :
    VerifyState r store dyn = some (Except.error StateError.mismatch, store) := by
  have hbne : (B != A) = true := bne_iff_ne.mpr fun hEq => hAB hEq.symm
  rw [VerifyState_eval r store dyn B nonce hne hparse, hcookie]
  dsimp only
  rw [hbne, if_pos rfl]

theorem VerifyState_mismatch_witness :
    VerifyState ⟨"bbb", [("oidc_state_csrf", "aaa")]⟩ [] false =
      some (Except.error StateError.mismatch, []) :=
  VerifyState_mismatch _ _ false "aaa" "bbb" "" (by decide) rfl rfl (by decide)

/-- C4: state deletion upon verification — whenever `VerifyState` performs
verification (the state parameter is present and decodes to session
identifier `v`, and the matching cookie carries the same `v`), the store
returned by the call holds no record for `v`, whatever the call's outcome. -/
theorem VerifyState_deletes_record (r : StateRequest) (store store' : StateStore)
    (dyn : Bool) (out : Except StateError State) (v nonce : String)
    (hne : r.stateParam ≠ "")
    (hparse : parseStateParam dyn r.stateParam = some (v, nonce))
    (hcookie : r.cookie? (stateCookieName dyn nonce) = some v)
    (h : VerifyState r store dyn = some (out, store')) :
    StateStore.get? store' v = none := by
  rw [VerifyState_eval r store dyn v nonce hne hparse, hcookie] at h
  dsimp only at h
  rw [bne_self_eq_false] at h
  simp only [Bool.false_eq_true, if_false] at h
  cases hget : StateStore.get? store v with
  | none =>
    rw [hget] at h
    have h2 : store = store' := by
      have := Option.some.inj h
      exact congrArg Prod.snd this
    rw [← h2]
    exact hget
  | some st =>
    rw [hget] at h
    have h2 : StateStore.erase store v = store' := by
      have := Option.some.inj h
      exact congrArg Prod.snd this
    rw [← h2]
    exact stateStore_get?_erase store v

theorem VerifyState_deletes_record_witness :
    StateStore.get? ([] : StateStore) "sid1" = none :=
  VerifyState_deletes_record ⟨"sid1", [("oidc_state_csrf", "sid1")]⟩
    [("sid1", ⟨"/app/page"⟩)] [] false (Except.ok ⟨"/app/page"⟩) "sid1" ""
    (by decide) rfl rfl rfl

/-- C5 counterexample: the failure outcomes of `VerifyState` for a missing
expected cookie and for a cookie/parameter mismatch are distinguishable to
the caller — the two runs below fail for the two causes and the error
values returned carry different messages, so the caller-visible error does
carry information separating the causes. -/
theorem VerifyState_error_messages_differ :
    VerifyState ⟨"aaa", []⟩ [] false =
      some (Except.error (StateError.missingCookie "oidc_state_csrf"), []) ∧
    VerifyState ⟨"bbb", [("oidc_state_csrf", "aaa")]⟩ [] false =
      some (Except.error StateError.mismatch, []) ∧
    StateError.message (StateError.missingCookie "oidc_state_csrf") ≠
      StateError.message StateError.mismatch :=
  ⟨rfl, rfl, by decide⟩

/-- C5 (amended): `VerifyState` itself returns cause-identifying errors for
`MissingCookie` and `Mismatch` (their messages differ); indistinguishability
holds one level up — the callback handler (modelled from the spec) maps
every state-verification failure to the same generic 401 response, so any
two failing runs, one with the cookie absent and one with differing values,
are indistinguishable in the client-visible response. -/
theorem VerifyState_failure_generic_response
    (r1 r2 : StateRequest) (s1 s2 s1' s2' : StateStore) (d1 d2 : Bool)
    (e1 e2 : StateError)
    (_h1 : VerifyState r1 s1 d1 = some (Except.error e1, s1'))
    (_h2 : VerifyState r2 s2 d2 = some (Except.error e2, s2')) :
    callbackFailureResponse e1 = callbackFailureResponse e2 := rfl

theorem VerifyState_failure_generic_response_witness :
    callbackFailureResponse (StateError.missingCookie "oidc_state_csrf") =
      callbackFailureResponse StateError.mismatch :=
  VerifyState_failure_generic_response ⟨"aaa", []⟩
    ⟨"bbb", [("oidc_state_csrf", "aaa")]⟩ [] [] [] [] false false _ _ rfl rfl

/-- C6: `CreateState` postcondition — the persisted record gets a
20-minute (1200-second) `MaxAge`; the nonce built from the eight random
draws has 8 characters; under dynamic cookie naming the cookie name is the
base name with `"_" ++ nonce` appended (and is the base name otherwise);
the returned state value is the cookie's session identifier with
`"." ++ nonce` appended exactly under dynamic naming; and the record is
persisted in the store under the session identifier. -/
theorem CreateState_postcondition (s : State) (store : StateStore)
    (draws : List Nat) (sessionID : String) (dyn : Bool)
    (h8 : draws.length = 8) :
    (CreateState s store draws sessionID dyn).1.maxAgeSeconds = 20 * 60 ∧
    (randString draws).length = 8 ∧
    (CreateState s store draws sessionID dyn).1.cookieName =
      (if dyn then oidcStateCookie ++ "_" ++ randString draws
       else oidcStateCookie) ∧
    (CreateState s store draws sessionID dyn).1.stateValue =
      (if dyn then sessionID ++ "." ++ randString draws else sessionID) ∧
    StateStore.get? (CreateState s store draws sessionID dyn).2 sessionID =
      some s := by
  refine ⟨rfl, ?_, rfl, rfl, ?_⟩
  · have hlen : (randString draws).length =
        (draws.map fun i => charset.toList.getD (i % charset.toList.length) 'a').length :=
      rfl
    rw [hlen, List.length_map, h8]
  · simp [CreateState, StateStore.get?]

theorem CreateState_postcondition_witness :
    (CreateState ⟨"/u"⟩ [] [0, 1, 2, 3, 4, 5, 6, 7] "sid" true).1.maxAgeSeconds =
      20 * 60 ∧
    (randString [0, 1, 2, 3, 4, 5, 6, 7]).length = 8 ∧
    (CreateState ⟨"/u"⟩ [] [0, 1, 2, 3, 4, 5, 6, 7] "sid" true).1.cookieName =
      (if true then oidcStateCookie ++ "_" ++ randString [0, 1, 2, 3, 4, 5, 6, 7]
       else oidcStateCookie) ∧
    (CreateState ⟨"/u"⟩ [] [0, 1, 2, 3, 4, 5, 6, 7] "sid" true).1.stateValue =
      (if true then "sid" ++ "." ++ randString [0, 1, 2, 3, 4, 5, 6, 7]
       else "sid") ∧
    StateStore.get? (CreateState ⟨"/u"⟩ [] [0, 1, 2, 3, 4, 5, 6, 7] "sid" true).2
      "sid" = some ⟨"/u"⟩ :=
  CreateState_postcondition _ _ _ _ _ (by decide)

/-! ## Claims about the session authenticator -/

/-- C3: strict session revalidation — with `strictSessionValidation`
enabled and a stored session found, a provider `GetUserInfo` failure that
is a `RequestError` with HTTP status 401 makes `AuthenticateRequest`
revoke the Session Store record and return pass-through (no identity,
`handled = false`, nil error); a `RequestError` with any other status, or
a non-`RequestError` failure, yields a definitive non-nil error and
leaves the store untouched. -/
theorem strictSessionValidation_revalidation (store : UserStore) (k : String)
    (rec : UserSessionRecord)
    (hrec : UserStore.get? store k = some rec)
    (htok : rec.tokenPresent = true) :
    (sessionAuthenticateRequest store (some k) false true (.requestError 401) =
      some ({ response := none, handled := false, error := none },
            UserStore.erase store k)) ∧
    (∀ c, c ≠ 401 →
      sessionAuthenticateRequest store (some k) false true (.requestError c) =
        some ({ response := none, handled := false,
                error := some (.userInfoUnexpectedCode c) }, store)) ∧
    (sessionAuthenticateRequest store (some k) false true .otherError =
      some ({ response := none, handled := false,
              error := some .userInfoUnexpected }, store)) := by
  refine ⟨?_, ?_, ?_⟩
  · simp [sessionAuthenticateRequest, hrec, htok]
  · intro c hc
    have hbne : (c != 401) = true := bne_iff_ne.mpr hc
    simp [sessionAuthenticateRequest, hrec, htok, hbne]
  · simp [sessionAuthenticateRequest, hrec, htok]

theorem strictSessionValidation_revalidation_witness :
    (sessionAuthenticateRequest
        [("k", ⟨true, some "alice", GroupsValue.list ["g"]⟩)] (some "k")
        false true (.requestError 401) =
      some ({ response := none, handled := false, error := none },
            UserStore.erase
              [("k", ⟨true, some "alice", GroupsValue.list ["g"]⟩)] "k")) ∧
    (sessionAuthenticateRequest
        [("k", ⟨true, some "alice", GroupsValue.list ["g"]⟩)] (some "k")
        false true (.requestError 500) =
      some ({ response := none, handled := false,
              error := some (.userInfoUnexpectedCode 500) },
            [("k", ⟨true, some "alice", GroupsValue.list ["g"]⟩)])) ∧
    (sessionAuthenticateRequest
        [("k", ⟨true, some "alice", GroupsValue.list ["g"]⟩)] (some "k")
        false true .otherError =
      some ({ response := none, handled := false,
              error := some .userInfoUnexpected },
            [("k", ⟨true, some "alice", GroupsValue.list ["g"]⟩)])) :=
  have h := strictSessionValidation_revalidation
    [("k", ⟨true, some "alice", GroupsValue.list ["g"]⟩)] "k"
    ⟨true, some "alice", GroupsValue.list ["g"]⟩ rfl rfl
  ⟨h.1, h.2.1 500 (by decide), h.2.2⟩

/-- C7: group default — a stored session record whose `groups` value is
absent or not a list of strings authenticates successfully with an empty
group set and a non-nil identity (provided authentication otherwise
succeeds: strict validation is off, or the provider call succeeds). -/
theorem session_groups_default (store : UserStore) (k : String)
    (rec : UserSessionRecord) (uid : String) (strict : Bool)
    (userInfo : GetUserInfoResult)
    (hrec : UserStore.get? store k = some rec)
    (hgroups : rec.groupsValue = .absent ∨ rec.groupsValue = .wrongType)
    (huid : rec.userID = some uid)
    (hok : strict = false ∨ (rec.tokenPresent = true ∧ userInfo = .success)) :
    sessionAuthenticateRequest store (some k) false strict userInfo =
      some ({ response := some { name := uid, groups := [] },
              handled := true, error := none }, store) := by
  have hsucc : sessionAuthnSuccess rec store =
      some ({ response := some { name := uid, groups := [] },
              handled := true, error := none }, store) := by
    rcases hgroups with hg | hg <;> simp [sessionAuthnSuccess, hg, huid]
  rcases hok with hs | ⟨ht, hu⟩
  · subst hs
    simp [sessionAuthenticateRequest, hrec, hsucc]
  · subst hu
    cases strict <;> simp [sessionAuthenticateRequest, hrec, ht, hsucc]

theorem session_groups_default_witness :
    sessionAuthenticateRequest
        [("k", ⟨true, some "alice", GroupsValue.absent⟩)] (some "k")
        false false .success =
      some ({ response := some { name := "alice", groups := [] },
              handled := true, error := none },
            [("k", ⟨true, some "alice", GroupsValue.absent⟩)]) :=
  session_groups_default
    [("k", ⟨true, some "alice", GroupsValue.absent⟩)] "k"
    ⟨true, some "alice", GroupsValue.absent⟩ "alice" false .success
    rfl (Or.inl rfl) rfl (Or.inl rfl)

/-! ## Claims about the bearer-ID-token authenticator -/

/-- C8: anonymous identity on missing userID claim — a bearer token that
verifies, whose claims lack the configured userID claim, yields
`handled = true`, a nil error and a definitively-authenticated anonymous
identity (empty name, no groups); the token is still re-emitted on the
configured downstream header. -/
theorem idToken_missing_userID_anonymous
    (headerValue tokenScheme tokenHeader : String) (groups : List String)
    (hbearer : GetBearerToken headerValue ≠ "") :
    idTokenAuthenticate headerValue tokenScheme tokenHeader true
        (some { userID := none, groups := groups }) =
      { user := some { Name := "", UID := "", Groups := [], Extra := [] },
        handled := true, errorPresent := false,
        respHeaders := [(tokenHeader,
          if tokenScheme != "" then
            tokenScheme ++ " " ++ GetBearerToken headerValue
          else GetBearerToken headerValue)] } := by
  simp only [idTokenAuthenticate]
  rw [stateParam_length_beq _ hbearer]
  simp

theorem idToken_missing_userID_anonymous_witness :
    idTokenAuthenticate "Bearer tok" "" "Authorization" true
        (some { userID := none, groups := [] }) =
      { user := some { Name := "", UID := "", Groups := [], Extra := [] },
        handled := true, errorPresent := false,
        respHeaders := [("Authorization",
          if ("" : String) != "" then "" ++ " " ++ GetBearerToken "Bearer tok"
          else GetBearerToken "Bearer tok")] } :=
  idToken_missing_userID_anonymous "Bearer tok" "" "Authorization" []
    (by decide)

/-- C9 counterexample: the claim fails on the anonymous path — on a
verified bearer token whose claims lack the userID claim, the
authenticator definitively authenticates (`handled = true`, nil error) yet
the returned identity's extra map has no `"auth-method"` entry. -/
theorem idToken_anonymous_extra_empty :
    (idTokenAuthenticate "Bearer tok" "" "Authorization" true
        (some { userID := none, groups := [] })).handled = true ∧
    (idTokenAuthenticate "Bearer tok" "" "Authorization" true
        (some { userID := none, groups := [] })).errorPresent = false ∧
    (idTokenAuthenticate "Bearer tok" "" "Authorization" true
        (some { userID := none, groups := [] })).user =
      some { Name := "", UID := "", Groups := [], Extra := [] } ∧
    User.extraLookup { Name := "", UID := "", Groups := [], Extra := [] }
      "auth-method" = none :=
  ⟨rfl, rfl, rfl, rfl⟩

/-- C9 (amended): for every request the bearer-ID-token authenticator
definitively authenticates from a present userID claim, the returned
identity's extra map contains `"auth-method"` mapped to `["header"]`; the
anonymous no-userID path instead returns an empty extra map. -/
theorem idToken_auth_method_extra
    (headerValue tokenScheme tokenHeader : String) (verified : Bool)
    (claims : ClaimsData) (uid : String) (u : User)
    (huid : claims.userID = some uid)
    (hres : (idTokenAuthenticate headerValue tokenScheme tokenHeader verified
        (some claims)).user = some u) :
    u.extraLookup "auth-method" = some ["header"] := by
  unfold idTokenAuthenticate at hres
  split at hres
  next => simp at hres
  next =>
    split at hres
    next => simp at hres
    next claims2 heq =>
      obtain rfl : claims = claims2 := Option.some.inj heq
      rw [huid] at hres
      dsimp only at hres
      split at hres
      next => simp at hres
      next =>
        have hu : { Name := uid, UID := "", Groups := claims.groups,
                    Extra := [("auth-method", ["header"])] : User } = u := by
          simpa using hres
        rw [← hu]
        rfl

theorem idToken_auth_method_extra_witness :
    User.extraLookup
      { Name := "alice", UID := "", Groups := ["g"],
        Extra := [("auth-method", ["header"])] } "auth-method" =
      some ["header"] :=
  idToken_auth_method_extra "Bearer tok" "" "Authorization" true
    { userID := some "alice", groups := ["g"] } "alice" _ rfl rfl

/-- C10: `VerifyState` is not total under dynamic cookie naming — on the
non-empty state parameter `"abc"`, which contains no `.` separator, the
split yields a single part and the access to the nonce part is out of
bounds (a Go panic, modelled as result `none`), rather than an error
return, for every store and cookie set. -/
theorem VerifyState_dynamic_not_total (cookies : List (String × String))
    (store : StateStore) :
    ("abc" : String) ≠ "" ∧ (stringsSplit "abc" '.').length = 1 ∧
    VerifyState ⟨"abc", cookies⟩ store true = none :=
  ⟨by decide, by decide, rfl⟩

end OIDCAuthService
